import Mathlib

/-!
Verification development for the starmap generator (src/starmap.py).

The file embeds the function generate_starmap as two stages, mirroring the
source: a validation prologue (lines 77 to 125) that coerces the textual
inputs, and a core build pipeline (lines 127 to 224) that loads data,
projects stars, filters by magnitude, resolves constellation edges and
saves the figure.  External collaborators (skyfield projection, the
timezone finder, the catalog and constellation data) are passed in as an
explicit environment, since they are libraries and data files rather than
code of this repository.  Machine floats are modelled by rationals, and
the transcendental marker-size formula by real numbers.
-/

/-- Value of a list of decimal digit characters. -/
def digitsToNat (l : List Char) : Nat :=
  l.foldl (fun acc c => acc * 10 + (c.toNat - 48)) 0

/-- Strip whitespace from both ends of a character list. -/
def stripWs (l : List Char) : List Char :=
  ((l.dropWhile Char.isWhitespace).reverse.dropWhile Char.isWhitespace).reverse

/-- Split a leading sign character off a character list; the Bool is true
for a leading minus. -/
def splitSign : List Char → (Bool × List Char)
  | '-' :: rest => (true, rest)
  | '+' :: rest => (false, rest)
  | l => (false, l)

/-- Model of the Python builtin int() applied to a string: optional
surrounding whitespace, an optional sign, then one or more decimal
digits.  Returns none where int() raises ValueError. -/
def parseInt (s : String) : Option ℤ :=
  let p := splitSign (stripWs s.data)
  if !p.2.isEmpty && p.2.all Char.isDigit then
    some (if p.1 then -(digitsToNat p.2 : ℤ) else (digitsToNat p.2 : ℤ))
  else none

/-- Model of the Python builtin float() applied to a string, restricted to
finite decimal literals: optional surrounding whitespace, an optional
sign, a mantissa of the forms D+, D+.D*, D+.D+ or .D+, and an optional
decimal exponent.  Returns none where float() raises ValueError. -/
def parseFloat (s : String) : Option ℚ :=
  let p := splitSign (stripWs s.data)
  let q := p.2.span (fun c => !(c == 'e' || c == 'E'))
  let mv : Option ℚ :=
    let r := q.1.span Char.isDigit
    match r.2 with
    | [] => if r.1.isEmpty then none else some (digitsToNat r.1 : ℚ)
    | '.' :: fp =>
        if fp.all Char.isDigit && (!r.1.isEmpty || !fp.isEmpty) then
          some ((digitsToNat r.1 : ℚ) + (digitsToNat fp : ℚ) / (10 : ℚ) ^ fp.length)
        else none
    | _ => none
  match mv with
  | none => none
  | some v =>
      match q.2 with
      | [] => some (if p.1 then -v else v)
      | _ :: rest =>
          let ep := splitSign rest
          if !ep.2.isEmpty && ep.2.all Char.isDigit then
            let e : ℤ := if ep.1 then -(digitsToNat ep.2 : ℤ) else (digitsToNat ep.2 : ℤ)
            some (if p.1 then -(v * (10 : ℚ) ^ e) else v * (10 : ℚ) ^ e)
          else none

/-- Wall-clock date and time down to the minute, as produced by parsing
with the format string of line 145. -/
structure DateTime where
  year : Nat
  month : Nat
  day : Nat
  hour : Nat
  minute : Nat
deriving Repr, DecidableEq

/-- Gregorian leap-year rule, as used by the datetime constructor to
validate the day of the month. -/
def isLeapYear (y : Nat) : Bool :=
  (y % 4 == 0 && y % 100 != 0) || y % 400 == 0

/-- Number of days in a month of a given year. -/
def daysInMonth (y m : Nat) : Nat :=
  if m == 2 then (if isLeapYear y then 29 else 28)
  else if m == 4 || m == 6 || m == 9 || m == 11 then 30
  else 31

/-- Take exactly four digit characters (the %Y field). -/
def take4Digits : List Char → Option (Nat × List Char)
  | a :: b :: c :: d :: rest =>
      if a.isDigit && b.isDigit && c.isDigit && d.isDigit then
        some (digitsToNat [a, b, c, d], rest)
      else none
  | _ => none

/-- Take one or two digit characters, greedily (the %m, %d, %H, %M
fields). -/
def take2Digits : List Char → Option (Nat × List Char)
  | c1 :: c2 :: rest =>
      if c1.isDigit && c2.isDigit then some (digitsToNat [c1, c2], rest)
      else if c1.isDigit then some (digitsToNat [c1], c2 :: rest)
      else none
  | [c1] => if c1.isDigit then some (digitsToNat [c1], []) else none
  | [] => none

/-- Model of datetime.strptime(time, "%Y-%m-%d %H:%M") from line 145:
four year digits, dash, month, dash, day, space, hour, colon, minute,
with field ranges checked (including the day against the month length,
as the datetime constructor does).  Returns none where the call raises
ValueError. -/
def parseDatetime (s : String) : Option DateTime :=
  match take4Digits s.data with
  | none => none
  | some (y, r1) =>
    match r1 with
    | '-' :: r2 =>
      match take2Digits r2 with
      | none => none
      | some (mo, r3) =>
        match r3 with
        | '-' :: r4 =>
          match take2Digits r4 with
          | none => none
          | some (d, r5) =>
            match r5 with
            | ' ' :: r6 =>
              match take2Digits r6 with
              | none => none
              | some (h, r7) =>
                match r7 with
                | ':' :: r8 =>
                  match take2Digits r8 with
                  | none => none
                  | some (mi, r9) =>
                    if r9.isEmpty && 1 ≤ y && 1 ≤ mo && mo ≤ 12 && 1 ≤ d
                        && d ≤ daysInMonth y mo && h ≤ 23 && mi ≤ 59 then
                      some { year := y, month := mo, day := d, hour := h, minute := mi }
                    else none
                | _ => none
            | _ => none
        | _ => none
    | _ => none

/-- One catalog star: hipparcos id, right ascension, declination and
magnitude.  Floats are modelled by rationals. -/
structure StarRecord where
  id : Nat
  ra : ℚ
  dec : ℚ
  magnitude : ℚ
deriving Repr, DecidableEq

/-- The external collaborators of one build: the star catalog and the
constellation edge list (loaded in lines 128 to 140), the geographic
timezone lookup of line 144, and the composite of the skyfield
observe-and-project pipeline of lines 152 to 173, which maps the catalog
coordinates of a star to planar (x, y).  All are read-only during a
build. -/
structure Env where
  stars : List StarRecord
  constellations : List (String × List (Nat × Nat))
  tzAt : ℚ → ℚ → Option String
  project : ℚ → ℚ → ℚ × ℚ

/-- A projected line segment between two planar points. -/
abbrev Seg := (ℚ × ℚ) × (ℚ × ℚ)

/-- The textual and widget-supplied arguments of generate_starmap
(lines 61 to 75). -/
structure Params where
  use_constellations : Bool
  constellation_color : String
  constellation_width : ℚ
  bg_color : String
  bg_alpha : ℚ
  star_color : String
  time : String
  lat : String
  long : String
  star_scaling : String
  max_magnitude : String
  output : String
  dpi : String
  star_limit : String
deriving Repr, DecidableEq

/-- The arguments after the coercion prologue of lines 77 to 125 has
succeeded. -/
structure ParsedParams where
  use_constellations : Bool
  constellation_color : String
  constellation_width : ℚ
  bg_color : String
  bg_alpha : ℚ
  star_color : String
  time : String
  lat : ℚ
  long : ℚ
  star_scaling : ℤ
  max_magnitude : ℤ
  output : String
  dpi : ℤ
  star_limit : ℤ
deriving Repr, DecidableEq

/-- Coercion and range check of the max_magnitude field (lines 103 to
111): int() conversion, then rejection outside [0, 15]. -/
def validateMaxMagnitude (s : String) : Option ℤ :=
  match parseInt s with
  | none => none
  | some n => if n < 0 ∨ 15 < n then none else some n

/-- The validation prologue of lines 77 to 125: each field is coerced in
source order and the first failure aborts with a message box naming the
field; no later field is examined after a failure. -/
def validateParams (p : Params) : Except (String × String) ParsedParams :=
  match parseFloat p.lat with
  | none => .error ("latitude", "The latitude is not a valid number. A valid latitude looks like this: 12.3456")
  | some lat =>
  match parseFloat p.long with
  | none => .error ("longitude", "The longitude is not a valid number. A valid longitude looks like this: 12.3456")
  | some long =>
  match parseInt p.star_scaling with
  | none => .error ("star_scaling", "The maximum star size is not a valid integer number.")
  | some star_scaling =>
  match validateMaxMagnitude p.max_magnitude with
  | none => .error ("max_magnitude", "The maximum magnitude is not a valid integer number from 0 to 15.")
  | some max_magnitude =>
  match parseInt p.dpi with
  | none => .error ("dpi", "The DPI is not a valid integer number.")
  | some dpi =>
  match parseInt p.star_limit with
  | none => .error ("star_limit", "The star size limit is not a valid integer number.")
  | some star_limit =>
  .ok { use_constellations := p.use_constellations,
        constellation_color := p.constellation_color,
        constellation_width := p.constellation_width,
        bg_color := p.bg_color, bg_alpha := p.bg_alpha,
        star_color := p.star_color, time := p.time,
        lat := lat, long := long, star_scaling := star_scaling,
        max_magnitude := max_magnitude, output := p.output,
        dpi := dpi, star_limit := star_limit }

/-- Module constant DPI of line 39; line 221 passes it to savefig. -/
def DPI : ℤ := 500

/-- Axes-level figure state set in lines 214 to 220: equal aspect ratio,
x and y limits, axes visibility. -/
structure FigureSettings where
  aspectEqual : Bool
  xlim : ℚ × ℚ
  ylim : ℚ × ℚ
  axisOff : Bool
deriving Repr, DecidableEq

/-- The figure settings the code always applies (lines 214 to 220). -/
def figureSettings : FigureSettings :=
  { aspectEqual := true, xlim := (-1, 1), ylim := (-1, 1), axisOff := true }

/-- Everything a successful build hands to the file on disk: the scatter
positions of the kept stars and their magnitudes (marker sizes are
derived from the latter by markerSize below), the resolved constellation
segment array of line 205, the segments actually added to the figure at
lines 207 to 212, the axes settings, and the dpi and path passed to
savefig at line 221. -/
structure BuildOutput where
  points : List (ℚ × ℚ)
  keptMagnitudes : List ℚ
  lines_xy : List Seg
  drawnSegments : List Seg
  settings : FigureSettings
  savedDpi : ℤ
  savedPath : String
deriving Repr, DecidableEq

/-- Outcome of one call of generate_starmap: a message box naming an
invalid field and an early return (the except branches of lines 77 to
125), an exception that propagates out of the function with no message
box, or a saved figure. -/
inductive BuildOutcome where
  | validationError (field : String) (message : String)
  | uncaughtException (desc : String)
  | success (out : BuildOutput)
deriving Repr, DecidableEq

/-- Exception text for the unhandled strptime failure of line 145. -/
def strptimeMsg : String := "ValueError in strptime: time data does not match format"

/-- Exception text for the unhandled pytz failure of line 146 when the
timezone lookup of line 144 found nothing. -/
def tzMsg : String := "Error in pytz timezone construction: lookup returned no zone"

/-- Exception text for the unhandled numpy amax failure of lines 179 and
184 on an empty sequence. -/
def amaxMsg : String := "ValueError in amax: zero-size array to reduction operation"

/-- Exception text for the unhandled pandas loc failure of lines 203 and
204 when an edge id is absent from the star table. -/
def keyErrorMsg : String := "KeyError in loc: star id not found in the catalog index"

/-- The projected star table of line 173: each star id paired with its
planar (x, y). -/
def projTable (env : Env) : List (Nat × (ℚ × ℚ)) :=
  env.stars.map (fun s => (s.id, env.project s.ra s.dec))

/-- All constellation edges flattened, as in line 175. -/
def catalogEdges (env : Env) : List (Nat × Nat) :=
  (env.constellations.map (fun c => c.2)).flatten

/-- Row lookup by star id in the projected table, as pandas loc does on
the hipparcos index; none models a KeyError. -/
def lookupXY (tbl : List (Nat × (ℚ × ℚ))) (i : Nat) : Option (ℚ × ℚ) :=
  (tbl.find? (fun r => r.1 == i)).map (fun r => r.2)

/-- Resolve a list of star ids against the projected table; none as soon
as any id is missing. -/
def resolveIds (tbl : List (Nat × (ℚ × ℚ))) (ids : List Nat) : Option (List (ℚ × ℚ)) :=
  ids.mapM (lookupXY tbl)

/-- The segment array of lines 203 to 205, built from the full projected
star table: first endpoints from the edge-first ids, second endpoints
from the edge-second ids, zipped into segments. -/
def resolveEdges (env : Env) : Option (List Seg) :=
  match resolveIds (projTable env) ((catalogEdges env).map (fun e => e.1)),
        resolveIds (projTable env) ((catalogEdges env).map (fun e => e.2)) with
  | some xy1, some xy2 => some (xy1.zip xy2)
  | _, _ => none

/-- The boolean mask and filter of lines 181 to 182: the stars whose
magnitude is at most max_magnitude. -/
def brightFilter (env : Env) (q : ParsedParams) : List StarRecord :=
  env.stars.filter (fun s => decide (s.magnitude ≤ (q.max_magnitude : ℚ)))

/-- The build pipeline after validation, lines 127 to 224.  Data loading
and the skyfield projection are supplied by the environment; the pytz
localization of lines 149 to 150 is abstracted as total since only the
parse and lookup failures around it are observable here.  The timezone
lookup of line 144 runs before the strptime of line 145, but only the
construction at line 146 can fail on its result, so the strptime failure
is checked first, as in the source.  The numpy amax calls of lines 179
and 184 raise on an empty catalog or an empty filtered set, and the
pandas loc calls of lines 203 to 204 raise on a missing edge id; each
such exception leaves the function with no saved file and no message
box. -/
def buildCore (env : Env) (q : ParsedParams) : BuildOutcome :=
  match parseDatetime q.time with
  | none => .uncaughtException strptimeMsg
  | some _dt =>
  match env.tzAt q.long q.lat with
  | none => .uncaughtException tzMsg
  | some _tz =>
  if env.stars.isEmpty then .uncaughtException amaxMsg else
  if (brightFilter env q).isEmpty then .uncaughtException amaxMsg else
  match resolveEdges env with
  | some lines_xy =>
      .success { points := (brightFilter env q).map (fun s => env.project s.ra s.dec),
                 keptMagnitudes := (brightFilter env q).map (fun s => s.magnitude),
                 lines_xy := lines_xy,
                 drawnSegments := if q.use_constellations then lines_xy else [],
                 settings := figureSettings,
                 savedDpi := DPI,
                 savedPath := q.output }
  | none => .uncaughtException keyErrorMsg

/-- The whole of generate_starmap: the validation prologue, then the
build pipeline. -/
def generate_starmap (env : Env) (p : Params) : BuildOutcome :=
  match validateParams p with
  | .error e => .validationError e.1 e.2
  | .ok q => buildCore env q

/-- Raw marker size of line 186: star_scaling times ten to the power
magnitude over minus 2.5, over the reals. -/
noncomputable def markerSizeRaw (star_scaling : ℤ) (m : ℚ) : ℝ :=
  (star_scaling : ℝ) * (10 : ℝ) ^ ((m : ℝ) / (-2.5 : ℝ))

/-- numpy clip with a_min absent and a_max given, as called on line 188:
an upper clamp only. -/
noncomputable def clipUpper (x : ℝ) (a_max : ℝ) : ℝ := min x a_max

/-- Marker size of a kept star after the clamp of line 188. -/
noncomputable def markerSize (star_scaling star_limit : ℤ) (m : ℚ) : ℝ :=
  clipUpper (markerSizeRaw star_scaling m) (star_limit : ℝ)

/-- Projection of an outcome to its resolved segment array, when it
succeeded. -/
def linesOf : BuildOutcome → Option (List Seg)
  | .success o => some o.lines_xy
  | _ => none

/-- Projection of an outcome to the segments added to the figure, when it
succeeded. -/
def drawnOf : BuildOutcome → Option (List Seg)
  | .success o => some o.drawnSegments
  | _ => none

/-- Projection of an outcome to the magnitudes of the kept stars, when it
succeeded. -/
def keptOf : BuildOutcome → Option (List ℚ)
  | .success o => some o.keptMagnitudes
  | _ => none

/-- Projection of an outcome to the dpi handed to savefig, when it
succeeded. -/
def savedDpiOf : BuildOutcome → Option ℤ
  | .success o => some o.savedDpi
  | _ => none

/-- Field name of a validation failure, if any. -/
def errorField : Except (String × String) ParsedParams → Option String
  | .error e => some e.1
  | .ok _ => none

/-- Membership of a planar point in the visible axes window. -/
def inWindow (fs : FigureSettings) (pt : ℚ × ℚ) : Bool :=
  decide (fs.xlim.1 ≤ pt.1) && decide (pt.1 ≤ fs.xlim.2)
    && decide (fs.ylim.1 ≤ pt.2) && decide (pt.2 ≤ fs.ylim.2)

/-- Model of the renderer: with the axes window set, exactly the scatter
points inside the window appear in the rendered image. -/
def renderedPoints (out : BuildOutput) : List (ℚ × ℚ) :=
  out.points.filter (inWindow out.settings)

/-- Predicate on an environment and parsed parameters meaning the build
pipeline reaches the edge lookup of lines 203 to 204: the time string
parses, the timezone lookup succeeds, and neither amax call sees an
empty sequence. -/
def reachesEdgeLookup (env : Env) (q : ParsedParams) : Bool :=
  (parseDatetime q.time).isSome && (env.tzAt q.long q.lat).isSome
    && !env.stars.isEmpty && !(brightFilter env q).isEmpty

/-- Concrete two-star environment used to evaluate the theorems: one
bright star (magnitude 1) and one dim star (magnitude 14), one
constellation edge joining them, an identity-like projection. -/
def exEnv : Env :=
  { stars := [{ id := 1, ra := 0, dec := 0, magnitude := 1 },
              { id := 2, ra := 2, dec := 3, magnitude := 14 }],
    constellations := [("Test", [(1, 2)])],
    tzAt := fun _ _ => some "Europe/Rome",
    project := fun ra dec => (ra, dec) }

/-- Variant of exEnv whose single edge references star id 3, which is
absent from the catalog. -/
def exEnvMissing : Env :=
  { exEnv with constellations := [("Test", [(1, 3)])] }

/-- Concrete textual parameters, all valid. -/
def exP : Params :=
  { use_constellations := true, constellation_color := "#ffffff",
    constellation_width := 1, bg_color := "#000000", bg_alpha := 1,
    star_color := "#ffffff", time := "2024-03-10 21:30",
    lat := "45.0", long := "9.0", star_scaling := "100",
    max_magnitude := "10", output := "starmap.png", dpi := "500",
    star_limit := "400" }

/-- The parsed form of exP. -/
def exQ : ParsedParams :=
  { use_constellations := true, constellation_color := "#ffffff",
    constellation_width := 1, bg_color := "#000000", bg_alpha := 1,
    star_color := "#ffffff", time := "2024-03-10 21:30",
    lat := 45, long := 9, star_scaling := 100,
    max_magnitude := 10, output := "starmap.png", dpi := 500,
    star_limit := 400 }

/-- Output of the build on exEnv with exQ: only the bright star passes
the magnitude-10 filter, the edge resolves against the full table. -/
def exOut : BuildOutput :=
  { points := [(0, 0)],
    keptMagnitudes := [1],
    lines_xy := [((0, 0), (2, 3))],
    drawnSegments := [((0, 0), (2, 3))],
    settings := figureSettings,
    savedDpi := 500,
    savedPath := "starmap.png" }

/-- Output of the build on exEnv with the magnitude threshold raised to
14: both stars pass the filter, the segments are unchanged. -/
def exOut14 : BuildOutput :=
  { points := [(0, 0), (2, 3)],
    keptMagnitudes := [1, 14],
    lines_xy := [((0, 0), (2, 3))],
    drawnSegments := [((0, 0), (2, 3))],
    settings := figureSettings,
    savedDpi := 500,
    savedPath := "starmap.png" }

/-- Shape of every successful build: the figure contains the projections
and magnitudes of exactly the filtered stars, the segment array resolved
from the full catalog, the constant axes settings, the constant DPI and
the requested path; segments are drawn only when requested. -/
theorem buildCore_success_shape (env : Env) (q : ParsedParams) (out : BuildOutput)
    (h : buildCore env q = .success out) :
    ∃ L, resolveEdges env = some L ∧
      out = { points := (brightFilter env q).map (fun s => env.project s.ra s.dec),
              keptMagnitudes := (brightFilter env q).map (fun s => s.magnitude),
              lines_xy := L,
              drawnSegments := if q.use_constellations then L else [],
              settings := figureSettings,
              savedDpi := DPI,
              savedPath := q.output } := by
  unfold buildCore at h
  split at h
  · exact absurd h (by simp)
  · split at h
    · exact absurd h (by simp)
    · split at h
      · exact absurd h (by simp)
      · split at h
        · exact absurd h (by simp)
        · split at h
          · rename_i L hL
            refine ⟨L, hL, ?_⟩
            cases h
            rfl
          · exact absurd h (by simp)

/-- C1: the claim says the dpi value passed to generate_starmap, after
integer coercion, is the DPI used when the figure is written.  The code
parses the dpi field (lines 113 to 117) but line 221 passes the module
constant DPI of line 39 to savefig: with every field valid and the
requested dpi 300, the saved figure uses 500, not 300. -/
theorem C1_dpi_ignored :
    parseInt (({ exP with dpi := "300" } : Params).dpi) = some 300 ∧
    savedDpiOf (generate_starmap exEnv { exP with dpi := "300" }) = some DPI ∧
    DPI = 500 ∧
    savedDpiOf (generate_starmap exEnv { exP with dpi := "300" }) ≠ some 300 := by
  refine ⟨by decide, by decide, rfl, by decide⟩

/-- C3: the claim says a date-time string that does not parse under the
pattern yields an InvalidTimeFormat error with exactly one user-visible
message.  In the code the strptime call of line 145 sits outside every
try block, so the ValueError propagates out of generate_starmap
unhandled, with no message box: for every environment and every
validated parameter set whose time string does not parse, the build ends
in the uncaught exception. -/
theorem C3_time_unhandled (env : Env) (q : ParsedParams)
    (ht : parseDatetime q.time = none) :
    buildCore env q = .uncaughtException strptimeMsg := by
  unfold buildCore
  rw [ht]

/-- Evaluation of C3_time_unhandled at a concrete input. -/
theorem C3_time_unhandled_witness :
    parseDatetime (({ exQ with time := "not a datetime" } : ParsedParams).time) = none ∧
    buildCore exEnv { exQ with time := "not a datetime" } = .uncaughtException strptimeMsg :=
  ⟨by decide, C3_time_unhandled exEnv { exQ with time := "not a datetime" } (by decide)⟩

/-- C4: max_magnitude is accepted exactly when it parses as an integer
in [0, 15]: the input 16 is rejected with an error naming max_magnitude,
so is -1, the input 15 passes the whole validation prologue, and in
general the coercion of lines 103 to 111 succeeds iff int() parsing
succeeds with a value between 0 and 15 inclusive. -/
theorem C4_max_magnitude_range (s : String) :
    errorField (validateParams { exP with max_magnitude := "16" }) = some "max_magnitude" ∧
    errorField (validateParams { exP with max_magnitude := "-1" }) = some "max_magnitude" ∧
    errorField (validateParams { exP with max_magnitude := "15" }) = none ∧
    ((validateMaxMagnitude s).isSome ↔ ∃ n : ℤ, parseInt s = some n ∧ 0 ≤ n ∧ n ≤ 15) := by
  refine ⟨by decide, by decide, by decide, ?_⟩
  unfold validateMaxMagnitude
  cases h : parseInt s with
  | none => simp
  | some n =>
      by_cases hn : n < 0 ∨ 15 < n
      · simp only [if_pos hn, Option.isSome_none, Bool.false_eq_true, false_iff]
        rintro ⟨m, hm, h0, h15⟩
        cases hm
        omega
      · simp only [if_neg hn, Option.isSome_some, true_iff]
        exact ⟨n, rfl, by omega, by omega⟩

/-- C5: a latitude string that does not parse as a float makes the build
return with a validation error naming latitude, before any later field
is examined, before any data is loaded or projected and before any file
is written: the outcome is exactly the latitude message box of lines 77
to 84. -/
theorem C5_latitude_fail_fast (env : Env) (p : Params)
    (h : parseFloat p.lat = none) :
    generate_starmap env p = .validationError "latitude"
      "The latitude is not a valid number. A valid latitude looks like this: 12.3456" := by
  unfold generate_starmap validateParams
  rw [h]

/-- Evaluation of C5_latitude_fail_fast at the concrete input abc. -/
theorem C5_latitude_fail_fast_witness :
    parseFloat (({ exP with lat := "abc" } : Params).lat) = none ∧
    generate_starmap exEnv { exP with lat := "abc" } = .validationError "latitude"
      "The latitude is not a valid number. A valid latitude looks like this: 12.3456" :=
  ⟨by decide, C5_latitude_fail_fast exEnv { exP with lat := "abc" } (by decide)⟩

/-- C2 counterexample: the claim says that with use_constellations false
no constellation edge id is looked up against the catalog, so a missing
edge id cannot affect such a build.  In the code the loc lookups of
lines 203 to 205 run before the use_constellations test of line 207:
with an edge referencing the absent star id 3 and use_constellations
false, the build still ends in the uncaught KeyError. -/
theorem C2_lookup_counterexample :
    ({ exQ with use_constellations := false } : ParsedParams).use_constellations = false ∧
    buildCore exEnvMissing { exQ with use_constellations := false } =
      .uncaughtException keyErrorMsg := by
  refine ⟨by decide, by decide⟩

/-- C2 amended: constellation edge ids are resolved against the full
catalog on every build that reaches line 203, regardless of
use_constellations, and a missing id aborts such a build with an
uncaught KeyError; the resolved segment array is what a successful build
records, and segments are drawn exactly when use_constellations is
true. -/
theorem C2_edges_resolved_unconditionally (env : Env) (q : ParsedParams)
    (h : reachesEdgeLookup env q = true) :
    (resolveEdges env = none → buildCore env q = .uncaughtException keyErrorMsg) ∧
    linesOf (buildCore env q) = resolveEdges env ∧
    drawnOf (buildCore env q) =
      (if q.use_constellations then resolveEdges env
       else (resolveEdges env).map (fun _ => [])) := by
  unfold reachesEdgeLookup at h
  simp only [Bool.and_eq_true, Bool.not_eq_true'] at h
  obtain ⟨⟨⟨ha, hb⟩, hc⟩, hd⟩ := h
  obtain ⟨dt, hdt⟩ := Option.isSome_iff_exists.mp ha
  obtain ⟨tz, htz⟩ := Option.isSome_iff_exists.mp hb
  unfold buildCore
  rw [hdt, htz]
  simp only [hc, hd, Bool.false_eq_true, if_false]
  cases hre : resolveEdges env with
  | none => simp [linesOf, drawnOf]
  | some L =>
      cases hu : q.use_constellations <;>
        simp [linesOf, drawnOf, hu]

/-- Evaluation of C2_edges_resolved_unconditionally at a concrete
input. -/
theorem C2_edges_resolved_unconditionally_witness :
    reachesEdgeLookup exEnv exQ = true ∧
    linesOf (buildCore exEnv exQ) = resolveEdges exEnv ∧
    drawnOf (buildCore exEnv exQ) =
      (if exQ.use_constellations then resolveEdges exEnv
       else (resolveEdges exEnv).map (fun _ => [])) :=
  ⟨by decide, (C2_edges_resolved_unconditionally exEnv exQ (by decide)).2.1,
    (C2_edges_resolved_unconditionally exEnv exQ (by decide)).2.2⟩

/-- C6: the magnitude filter keeps exactly the catalog stars with
magnitude at most max_magnitude: every successful build scatters
precisely the projections of the stars passing the inclusive filter of
lines 181 to 182, with their magnitudes; on the concrete two-star
catalog with magnitudes 1 and 14 and threshold 10, only the
magnitude-1 star is kept. -/
theorem C6_magnitude_filter (env : Env) (q : ParsedParams) (out : BuildOutput)
    (h : buildCore env q = .success out) :
    out.points = (env.stars.filter
        (fun s => decide (s.magnitude ≤ (q.max_magnitude : ℚ)))).map
        (fun s => env.project s.ra s.dec) ∧
    out.keptMagnitudes = (env.stars.filter
        (fun s => decide (s.magnitude ≤ (q.max_magnitude : ℚ)))).map
        (fun s => s.magnitude) ∧
    keptOf (buildCore exEnv exQ) = some [1] := by
  obtain ⟨L, hL, rfl⟩ := buildCore_success_shape env q out h
  exact ⟨rfl, rfl, by decide⟩

/-- Evaluation of C6_magnitude_filter at the concrete two-star
catalog. -/
theorem C6_magnitude_filter_witness :
    buildCore exEnv exQ = .success exOut ∧
    (exOut.points = (exEnv.stars.filter
        (fun s => decide (s.magnitude ≤ (exQ.max_magnitude : ℚ)))).map
        (fun s => exEnv.project s.ra s.dec) ∧
     exOut.keptMagnitudes = (exEnv.stars.filter
        (fun s => decide (s.magnitude ≤ (exQ.max_magnitude : ℚ)))).map
        (fun s => s.magnitude) ∧
     keptOf (buildCore exEnv exQ) = some [1]) :=
  ⟨by decide, C6_magnitude_filter exEnv exQ exOut (by decide)⟩

/-- C9: constellation segments come from the full unfiltered catalog:
the segment array of every successful build is the resolution of the
edges against the complete projected star table, and two successful
builds differing only in max_magnitude record the same segment array and
draw the same segments. -/
theorem C9_segments_unfiltered (env : Env) (q : ParsedParams) (m1 m2 : ℤ)
    (out1 out2 : BuildOutput)
    (h1 : buildCore env { q with max_magnitude := m1 } = .success out1)
    (h2 : buildCore env { q with max_magnitude := m2 } = .success out2) :
    resolveEdges env = some out1.lines_xy ∧
    out1.lines_xy = out2.lines_xy ∧
    out1.drawnSegments = out2.drawnSegments := by
  obtain ⟨L1, hL1, rfl⟩ := buildCore_success_shape _ _ _ h1
  obtain ⟨L2, hL2, rfl⟩ := buildCore_success_shape _ _ _ h2
  have hEq : some L1 = some L2 := hL1.symm.trans hL2
  injection hEq with hEq
  subst hEq
  exact ⟨hL1, rfl, rfl⟩

/-- Evaluation of C9_segments_unfiltered at the concrete two-star
catalog with thresholds 10 and 14. -/
theorem C9_segments_unfiltered_witness :
    resolveEdges exEnv = some exOut.lines_xy ∧
    exOut.lines_xy = exOut14.lines_xy ∧
    exOut.drawnSegments = exOut14.drawnSegments :=
  C9_segments_unfiltered exEnv exQ 10 14 exOut exOut14 (by decide) (by decide)

/-- C10: every successful build fixes the drawing surface to the square
window x in [-1, 1], y in [-1, 1] with equal aspect ratio and axes
hidden, independently of every user parameter, and the rendered image
contains exactly the computed scatter points lying inside that
window. -/
theorem C10_fixed_window (env : Env) (p : Params) (out : BuildOutput)
    (h : generate_starmap env p = .success out) :
    out.settings = { aspectEqual := true, xlim := (-1, 1), ylim := (-1, 1), axisOff := true } ∧
    renderedPoints out = out.points.filter
      (inWindow { aspectEqual := true, xlim := (-1, 1), ylim := (-1, 1), axisOff := true }) := by
  unfold generate_starmap at h
  cases hv : validateParams p with
  | error e => rw [hv] at h; exact absurd h (by simp)
  | ok q =>
      rw [hv] at h
      obtain ⟨L, hL, rfl⟩ := buildCore_success_shape _ _ _ h
      exact ⟨rfl, rfl⟩

/-- Evaluation of C10_fixed_window at a concrete successful build. -/
theorem C10_fixed_window_witness :
    exOut.settings = { aspectEqual := true, xlim := (-1, 1), ylim := (-1, 1), axisOff := true } ∧
    renderedPoints exOut = exOut.points.filter
      (inWindow { aspectEqual := true, xlim := (-1, 1), ylim := (-1, 1), axisOff := true }) :=
  C10_fixed_window exEnv exP exOut (by decide)

/-- Ten to the real power minus one, the factor for magnitude 5/2. -/
theorem ten_rpow_for_five_halves :
    (10 : ℝ) ^ (((5 / 2 : ℚ) : ℝ) / (-2.5 : ℝ)) = 1 / 10 := by
  have he : ((5 / 2 : ℚ) : ℝ) / (-2.5 : ℝ) = ((-1 : ℤ) : ℝ) := by
    push_cast
    norm_num
  rw [he, Real.rpow_intCast]
  norm_num

/-- Raw marker size at magnitude 5/2 is the scaling over ten. -/
theorem markerSizeRaw_five_halves (s : ℤ) :
    markerSizeRaw s (5 / 2) = (s : ℝ) / 10 := by
  unfold markerSizeRaw
  rw [ten_rpow_for_five_halves]
  ring

/-- Raw marker size at magnitude zero is the scaling itself. -/
theorem markerSizeRaw_zero_mag (s : ℤ) :
    markerSizeRaw s 0 = (s : ℝ) := by
  unfold markerSizeRaw
  norm_num

/-- C7: the marker size of a kept star is the value of
star_scaling times ten to the power magnitude over minus 2.5, clamped
to star_size_limit as an upper bound only: below the limit the raw
value is kept unchanged (no lower bound), above it the limit is
used. -/
theorem C7_marker_size_formula (s l : ℤ) (m : ℚ) :
    markerSize s l m =
      min ((s : ℝ) * (10 : ℝ) ^ ((m : ℝ) / (-2.5 : ℝ))) (l : ℝ) ∧
    (markerSizeRaw s m ≤ (l : ℝ) → markerSize s l m = markerSizeRaw s m) ∧
    ((l : ℝ) ≤ markerSizeRaw s m → markerSize s l m = (l : ℝ)) := by
  refine ⟨rfl, fun h => min_eq_left h, fun h => min_eq_right h⟩

/-- Evaluation of C7_marker_size_formula at scaling 100, limit 400 and
magnitude 5/2, where the raw size 10 is below the limit and is kept
unchanged. -/
theorem C7_marker_size_formula_witness :
    markerSizeRaw 100 (5 / 2) ≤ ((400 : ℤ) : ℝ) ∧
    markerSize 100 400 (5 / 2) = markerSizeRaw 100 (5 / 2) := by
  have hle : markerSizeRaw 100 (5 / 2) ≤ ((400 : ℤ) : ℝ) := by
    rw [markerSizeRaw_five_halves]
    norm_num
  exact ⟨hle, (C7_marker_size_formula 100 400 (5 / 2)).2.1 hle⟩

/-- C8 counterexample: the claim allows star_scaling to be any integer,
but with the negative scaling -100 the marker size strictly increases
from magnitude 0 (size -100) to magnitude 5/2 (size -10), so it is not
monotonically non-increasing in magnitude. -/
theorem C8_not_monotone_counterexample :
    markerSize (-100) 400 0 < markerSize (-100) 400 (5 / 2) := by
  unfold markerSize clipUpper
  rw [markerSizeRaw_zero_mag, markerSizeRaw_five_halves]
  norm_num [min_def]

/-- C8 amended: for every nonnegative star_scaling the marker size is
monotonically non-increasing in magnitude, and for every star_scaling it
never exceeds star_size_limit. -/
theorem C8_marker_monotone :
    (∀ (s l : ℤ) (m1 m2 : ℚ), 0 ≤ s → m1 ≤ m2 →
        markerSize s l m2 ≤ markerSize s l m1) ∧
    (∀ (s l : ℤ) (m : ℚ), markerSize s l m ≤ (l : ℝ)) := by
  constructor
  · intro s l m1 m2 hs hm
    unfold markerSize clipUpper
    refine min_le_min ?_ le_rfl
    unfold markerSizeRaw
    have h10 : (1 : ℝ) ≤ 10 := by norm_num
    have hm' : (m1 : ℝ) ≤ (m2 : ℝ) := by exact_mod_cast hm
    have hexp : (m2 : ℝ) / (-2.5 : ℝ) ≤ (m1 : ℝ) / (-2.5 : ℝ) :=
      (div_le_div_right_of_neg (by norm_num)).mpr hm'
    have hs' : (0 : ℝ) ≤ (s : ℝ) := by exact_mod_cast hs
    exact mul_le_mul_of_nonneg_left (Real.rpow_le_rpow_of_exponent_le h10 hexp) hs'
  · intro s l m
    exact min_le_right _ _

/-- Evaluation of C8_marker_monotone at scaling 100, limit 400,
magnitudes 0 and 5/2. -/
theorem C8_marker_monotone_witness :
    markerSize 100 400 (5 / 2) ≤ markerSize 100 400 0 ∧
    markerSize 100 400 (5 / 2) ≤ ((400 : ℤ) : ℝ) :=
  ⟨C8_marker_monotone.1 100 400 0 (5 / 2) (by norm_num) (by norm_num),
    C8_marker_monotone.2 100 400 (5 / 2)⟩
